import Mathlib

/-!
Verification of the NHS Inclusion Coach service module
(src/services/geminiService.ts) against its specification.

The module is a thin orchestration layer around a provider client:
a lazily-memoized client accessor, a conversation-history adapter,
a file-to-inline-data adapter and two asynchronous streaming flows.
We embed the module shallowly: JavaScript truthiness is made explicit,
the memoized module-level client is threaded as explicit state, the
provider's asynchronous stream is an oracle (a list of chunks plus a
flag saying whether the stream throws after them), and each async
generator becomes a function from that oracle to the list of elements
it yields, wrapped in Except so that a propagated exception is
representable.
-/

/-- The Author enum from src/types: a conversation turn is authored by the
end user or by the assistant. -/
inductive Author where
  | user
  | ai
deriving DecidableEq, Repr

/-- A conversation turn: Message from src/types, as consumed by
buildGeminiHistory (author tag and text content). -/
structure Message where
  author : Author
  content : String
deriving DecidableEq, Repr

/-- A single text part in a Gemini history entry. -/
structure TextPart where
  text : String
deriving DecidableEq, Repr

/-- One entry of the provider-format history produced by buildGeminiHistory:
a role string and a singleton parts list. -/
structure GeminiContent where
  role : String
  parts : List TextPart
deriving DecidableEq, Repr

/-- The per-message translation inside buildGeminiHistory's map:
role is the string user for user-authored turns and model otherwise, and
the parts list is the singleton text part holding the turn's content. -/
def messageToContent (msg : Message) : GeminiContent :=
  { role := if msg.author = Author.user then "user" else "model"
    parts := [{ text := msg.content }] }

/-- buildGeminiHistory (src/services/geminiService.ts lines 35 to 46):
copies the messages, removes a leading assistant-authored turn if present
(history.shift on the copy), then maps each remaining turn through the
role relabeling. -/
def buildGeminiHistory (messages : List Message) : List GeminiContent :=
  let history :=
    match messages with
    | m :: rest => if m.author = Author.ai then rest else m :: rest
    | [] => []
  history.map messageToContent

/-- JavaScript truthiness of a nullable string: null and the empty string
are falsy, any other string is truthy. -/
def jsTruthy : Option String → Bool
  | none => false
  | some s => s ≠ ""

/-- The configuration sources read by getAIClient: process.env.API_KEY and
localStorage.getItem of GEMINI_API_KEY, each possibly absent. -/
structure Env where
  apiKeyEnv : Option String
  apiKeyLocal : Option String
deriving DecidableEq, Repr

/-- The credential as resolved by getAIClient: process.env.API_KEY if truthy,
otherwise the localStorage value (the JavaScript or-else on the two reads). -/
def resolvedKey (env : Env) : Option String :=
  if jsTruthy env.apiKeyEnv then env.apiKeyEnv else env.apiKeyLocal

/-- The provider client handle: GoogleGenAI constructed from the resolved
credential. -/
structure Client where
  apiKey : String
deriving DecidableEq, Repr

/-- The message of the configuration error thrown by getAIClient when no
credential is resolvable. -/
def apiKeyErrorMessage : String :=
  "API Key not found. Please ensure it is set in environment or localStorage."

/-- getAIClient (src/services/geminiService.ts lines 7 to 18), with the
module-level memoized client passed as explicit state. If a client is
cached it is returned unchanged; otherwise the credential is resolved and
either a fresh client is built and cached or the configuration error is
thrown. The accessor touches no network. -/
def getAIClient (env : Env) (cache : Option Client) :
    Except String (Client × Option Client) :=
  match cache with
  | some c => .ok (c, some c)
  | none =>
      let apiKey := resolvedKey env
      if jsTruthy apiKey then
        let c : Client := { apiKey := apiKey.getD "" }
        .ok (c, some c)
      else
        .error apiKeyErrorMessage

/-- The web field of one provider grounding chunk: uri and title, each
possibly absent. -/
structure WebInfo where
  uri : Option String
  title : Option String
deriving DecidableEq, Repr

/-- One entry of a chunk's groundingMetadata.groundingChunks list. -/
structure GroundingChunkMeta where
  web : WebInfo
deriving DecidableEq, Repr

/-- A source as projected by the conversational flow before filtering:
the uri and title fields read off the grounding chunk's web object. -/
structure RawSource where
  uri : Option String
  title : Option String
deriving DecidableEq, Repr

/-- The citation extraction inside getChatResponseStream (lines 65 to 75):
map each grounding chunk to its uri and title, then keep only the entries
where both are truthy (present and non-empty). -/
def extractSources (l : List GroundingChunkMeta) : List RawSource :=
  (l.map fun c => ({ uri := c.web.uri, title := c.web.title } : RawSource)).filter
    fun s => jsTruthy s.uri && jsTruthy s.title

/-- One chunk of the provider stream as the module reads it: its text and,
for the conversational flow, the optional groundingChunks list reached by
safe navigation through candidates and groundingMetadata. -/
structure ProviderChunk where
  text : String
  groundingChunks : Option (List GroundingChunkMeta)
deriving DecidableEq, Repr

/-- The provider oracle for one streaming call: the chunks the stream
yields, and whether it then throws instead of closing normally. A failure
during session setup (before any chunk) is the case of an empty chunk list
with thenErrors set. -/
structure ProviderBehavior where
  chunks : List ProviderChunk
  thenErrors : Bool
deriving DecidableEq, Repr

/-- One element yielded to the caller by either flow: text plus sources. -/
structure StreamElement where
  text : String
  sources : List RawSource
deriving DecidableEq, Repr

/-- The fixed apology text of the conversational flow's error placeholder. -/
def chatApology : String :=
  "I'm sorry, I encountered an error. Please try again."

/-- The fixed apology text of the deep-dive flow's error placeholder. -/
def deepDiveApology : String :=
  "I'm sorry, I encountered an error during the deep dive analysis. Please try again."

/-- The projection of one provider chunk to the element yielded by the
conversational flow: the chunk's text, and the filtered citation list
(empty when the safe navigation to groundingChunks yields nothing). -/
def chunkToElement (c : ProviderChunk) : StreamElement :=
  { text := c.text
    sources :=
      match c.groundingChunks with
      | some l => extractSources l
      | none => [] }

/-- getChatResponseStream (lines 48 to 84) as a function of the provider
oracle: builds the adapted history, then inside try obtains the client and
consumes the stream, yielding one projected element per chunk; any error
inside the try block (including the configuration error from getAIClient)
is caught and replaced by the single apology placeholder, after which the
generator ends normally. The Except wrapper records whether an exception
escapes to the caller; as in the source, none does. -/
def getChatResponseStream (env : Env) (cache : Option Client)
    (p : ProviderBehavior) (history : List Message) (newMessage : String) :
    Except String (List StreamElement) :=
  let _geminiHistory := buildGeminiHistory history
  let _message := newMessage
  match getAIClient env cache with
  | .error _e =>
      .ok [{ text := chatApology, sources := [] }]
  | .ok _ =>
      let real := p.chunks.map chunkToElement
      if p.thenErrors then
        .ok (real ++ [{ text := chatApology, sources := [] }])
      else
        .ok real

/-- The file object consumed by the deep-dive flow, after fileToGenerativePart
has read it: its base64-encoded data and MIME type. -/
structure FileObj where
  data : String
  mimeType : String
deriving DecidableEq, Repr

/-- A request part: an inline-data payload or a text part. -/
inductive ReqPart where
  | inlineData (data : String) (mimeType : String)
  | text (t : String)
deriving DecidableEq, Repr

/-- One content turn of a generateContent request. -/
structure ContentTurn where
  role : String
  parts : List ReqPart
deriving DecidableEq, Repr

/-- The default prompt substituted for an empty deep-dive message. -/
def deepDiveDefaultPrompt : String :=
  "Please provide a summary of the attached document."

/-- The userParts construction of getDeepDiveResponseStream (lines 89 to 95):
the encoded file payload if a file is attached, then always a text part
holding the message, or the default prompt when the message is empty
(the JavaScript or-else on the message string). -/
def buildDeepDiveUserParts (newMessage : String) (file : Option FileObj) :
    List ReqPart :=
  let userParts :=
    match file with
    | some f => [ReqPart.inlineData f.data f.mimeType]
    | none => []
  userParts ++ [ReqPart.text (if newMessage = "" then deepDiveDefaultPrompt else newMessage)]

/-- The generateContent request built by getDeepDiveResponseStream
(lines 97 to 105): model name, a single user turn holding the built parts,
and the fixed thinking budget. -/
structure DeepDiveRequest where
  model : String
  contents : List ContentTurn
  thinkingBudget : Nat
deriving DecidableEq, Repr

/-- The request value assembled by getDeepDiveResponseStream before the
try block. -/
def getDeepDiveRequest (newMessage : String) (file : Option FileObj) :
    DeepDiveRequest :=
  { model := "gemini-2.5-pro"
    contents := [{ role := "user", parts := buildDeepDiveUserParts newMessage file }]
    thinkingBudget := 32768 }

/-- getDeepDiveResponseStream (lines 86 to 123) as a function of the provider
oracle: builds the single-turn request, then inside try obtains the client
and consumes the stream, yielding each chunk's text with an always-empty
sources list; any error inside the try block is caught and replaced by the
single deep-dive apology placeholder, after which the generator ends
normally. No exception escapes to the caller. -/
def getDeepDiveResponseStream (env : Env) (cache : Option Client)
    (p : ProviderBehavior) (newMessage : String) (file : Option FileObj) :
    Except String (List StreamElement) :=
  let _req := getDeepDiveRequest newMessage file
  match getAIClient env cache with
  | .error _e =>
      .ok [{ text := deepDiveApology, sources := [] }]
  | .ok _ =>
      let real := p.chunks.map fun c => ({ text := c.text, sources := [] } : StreamElement)
      if p.thenErrors then
        .ok (real ++ [{ text := deepDiveApology, sources := [] }])
      else
        .ok real

/-!
A small heap of JavaScript arrays of messages, to state the frame property of
buildGeminiHistory: the source copies the caller's array before mutating
(const history takes a spread copy, and history.shift mutates that copy), so
the caller's array is unchanged by the call.
-/

/-- The heap: each JavaScript array of messages is a cell, addressed by index. -/
abbrev MsgHeap := List (List Message)

/-- Read the array held by a heap reference (empty for a dangling one). -/
def readRef (h : MsgHeap) (r : Nat) : List Message :=
  (h[r]?).getD []

/-- buildGeminiHistory against the heap, mutation made explicit: allocate the
spread copy as a fresh cell, shift that cell if its head is assistant-authored,
and map the cell's final contents. Returns the final heap and the result. -/
def buildGeminiHistoryHeap (h : MsgHeap) (r : Nat) :
    MsgHeap × List GeminiContent :=
  let msgs := readRef h r
  let historyRef := h.length
  let h1 := h ++ [msgs]
  let h2 :=
    match readRef h1 historyRef with
    | m :: rest => if m.author = Author.ai then h1.set historyRef rest else h1
    | [] => h1
  (h2, (readRef h2 historyRef).map messageToContent)

/-- A concrete environment with a credential in process configuration, used
to instantiate the universally quantified theorems. -/
def sampleEnvKey : Env := { apiKeyEnv := some "k", apiKeyLocal := none }

/-- A concrete environment with no credential in either source. -/
def sampleEnvNone : Env := { apiKeyEnv := none, apiKeyLocal := none }

/-- A concrete client handle. -/
def sampleClient : Client := { apiKey := "k" }

/-- A concrete provider chunk without citation metadata. -/
def sampleChunk : ProviderChunk := { text := "hello", groundingChunks := none }

/-- A concrete provider behavior: one chunk, then the stream throws. -/
def sampleErrProvider : ProviderBehavior := { chunks := [sampleChunk], thenErrors := true }

/-- A concrete provider behavior: one chunk, normal close. -/
def sampleOkProvider : ProviderBehavior := { chunks := [sampleChunk], thenErrors := false }

/-- A concrete one-cell heap holding an assistant turn followed by a user turn. -/
def sampleHeap : MsgHeap :=
  [[{ author := Author.ai, content := "a" }, { author := Author.user, content := "b" }]]

/-!
Helper lemmas shared by the claim theorems.
-/

/-- When the first message is not assistant-authored, buildGeminiHistory is
the plain relabeling map over all messages. -/
theorem buildGeminiHistory_cons_user (m : Message) (rest : List Message)
    (hm : m.author = Author.user) :
    buildGeminiHistory (m :: rest) = (m :: rest).map messageToContent := by
  have hne : ¬ m.author = Author.ai := by rw [hm]; intro hc; cases hc
  simp [buildGeminiHistory, hne]

/-- When the first message is assistant-authored, buildGeminiHistory is the
relabeling map over the remaining messages. -/
theorem buildGeminiHistory_cons_ai (m : Message) (rest : List Message)
    (hm : m.author = Author.ai) :
    buildGeminiHistory (m :: rest) = rest.map messageToContent := by
  simp [buildGeminiHistory, hm]

/-- extractSources is the order-preserving restriction to the entries whose
uri and title are both truthy, projected to RawSource. -/
theorem extractSources_eq_filter (l : List GroundingChunkMeta) :
    extractSources l =
      (l.filter fun g => jsTruthy g.web.uri && jsTruthy g.web.title).map
        (fun g => ({ uri := g.web.uri, title := g.web.title } : RawSource)) := by
  induction l with
  | nil => rfl
  | cons g gs ih =>
      by_cases hg : (jsTruthy g.web.uri && jsTruthy g.web.title) = true
      · simp only [extractSources, List.map_cons, List.filter_cons] at ih ⊢
        simp [hg, ih]
      · simp only [extractSources, List.map_cons, List.filter_cons] at ih ⊢
        simp [hg, ih]

/-- Reading an untouched cell through an extended heap. -/
theorem readRef_append_self (h : MsgHeap) (r : Nat) (v : List Message)
    (hr : r < h.length) : readRef (h ++ [v]) r = readRef h r := by
  simp [readRef, List.getElem?_append_left hr]

/-- Reading the freshly appended cell. -/
theorem readRef_concat_top (h : MsgHeap) (v : List Message) :
    readRef (h ++ [v]) h.length = v := by
  simp [readRef, List.getElem?_concat_length]

/-- Writing one cell leaves every other cell unchanged. -/
theorem readRef_set_ne (h : MsgHeap) (i r : Nat) (v : List Message)
    (hir : i ≠ r) : readRef (h.set i v) r = readRef h r := by
  simp [readRef, List.getElem?_set_ne hir]

/-- Reading back the cell just written. -/
theorem readRef_set_top (h : MsgHeap) (v : List Message) (i : Nat)
    (hi : i < h.length) : readRef (h.set i v) i = v := by
  simp [readRef, List.getElem?_set_eq_of_lt v hi]

/-!
The claim theorems.
-/

/-- C1 counterexample: the history whose two turns are both assistant-authored
begins with an assistant turn and is not a singleton, yet its adaptation is the
non-empty list whose first element has role model, not user: the leading-turn
fix does not re-validate the rest of the history. -/
theorem C1_counterexample :
    buildGeminiHistory
        [{ author := Author.ai, content := "a" }, { author := Author.ai, content := "b" }] =
      [{ role := "model", parts := [{ text := "b" }] }] ∧
    ("model" : String) ≠ "user" := by
  exact ⟨rfl, by decide⟩

/-- C1 (amended): for every history whose first turn is assistant-authored and
whose second turn, if present, is user-authored, buildGeminiHistory returns the
empty list when the assistant turn was the only element, and otherwise a list
whose first element has role user. -/
theorem C1_theorem (m : Message) (rest : List Message)
    (hm : m.author = Author.ai)
    (halt : ∀ m2 : Message, rest.head? = some m2 → m2.author = Author.user) :
    (rest = [] ∧ buildGeminiHistory (m :: rest) = []) ∨
    (∃ e es, buildGeminiHistory (m :: rest) = e :: es ∧ e.role = "user") := by
  cases rest with
  | nil =>
      left
      exact ⟨rfl, by rw [buildGeminiHistory_cons_ai m [] hm]; rfl⟩
  | cons m2 rest2 =>
      right
      refine ⟨messageToContent m2, rest2.map messageToContent, ?_, ?_⟩
      · rw [buildGeminiHistory_cons_ai m (m2 :: rest2) hm, List.map_cons]
      · have h2 : m2.author = Author.user := halt m2 rfl
        simp [messageToContent, h2]

/-- C1 witness: the amended statement at the concrete history of one assistant
turn followed by one user turn. -/
theorem C1_witness :
    (([({ author := Author.user, content := "b" } : Message)] = ([] : List Message)) ∧
      buildGeminiHistory
        [{ author := Author.ai, content := "a" }, { author := Author.user, content := "b" }] = []) ∨
    (∃ e es, buildGeminiHistory
        [{ author := Author.ai, content := "a" }, { author := Author.user, content := "b" }] =
          e :: es ∧ e.role = "user") :=
  C1_theorem { author := Author.ai, content := "a" } [{ author := Author.user, content := "b" }]
    rfl (by intro m2 hm2; simp only [List.head?_cons, Option.some.injEq] at hm2; rw [← hm2])

/-- C2: for every history whose first turn is user-authored, the adaptation
preserves length and order, each element's role is user for user-authored turns
and model otherwise, and each element's single text part is the turn's content. -/
theorem C2_theorem (m : Message) (rest : List Message)
    (hm : m.author = Author.user) :
    (buildGeminiHistory (m :: rest)).length = (m :: rest).length ∧
    ∀ i : Nat, (buildGeminiHistory (m :: rest))[i]? =
      ((m :: rest)[i]?).map (fun msg =>
        ({ role := if msg.author = Author.user then "user" else "model"
           parts := [{ text := msg.content }] } : GeminiContent)) := by
  rw [buildGeminiHistory_cons_user m rest hm]
  refine ⟨List.length_map _ _, ?_⟩
  intro i
  rw [List.getElem?_map]
  rfl

/-- C2 witness: the relabeling statement at a concrete two-turn history whose
first turn is user-authored. -/
theorem C2_witness :
    (buildGeminiHistory
        [{ author := Author.user, content := "a" }, { author := Author.ai, content := "b" }]).length =
      ([{ author := Author.user, content := "a" },
        { author := Author.ai, content := "b" }] : List Message).length ∧
    ∀ i : Nat, (buildGeminiHistory
        [{ author := Author.user, content := "a" }, { author := Author.ai, content := "b" }])[i]? =
      (([{ author := Author.user, content := "a" },
          { author := Author.ai, content := "b" }] : List Message)[i]?).map (fun msg =>
        ({ role := if msg.author = Author.user then "user" else "model"
           parts := [{ text := msg.content }] } : GeminiContent)) :=
  C2_theorem { author := Author.user, content := "a" } [{ author := Author.ai, content := "b" }] rfl

/-- C3: for every chunk of the conversational stream whose citation metadata is
present, the sources of the yielded element are exactly the metadata entries
whose uri and title are both present and non-empty, projected in original order. -/
theorem C3_theorem (c : ProviderChunk) (l : List GroundingChunkMeta)
    (hc : c.groundingChunks = some l) :
    (chunkToElement c).sources =
      (l.filter fun g => jsTruthy g.web.uri && jsTruthy g.web.title).map
        (fun g => ({ uri := g.web.uri, title := g.web.title } : RawSource)) := by
  have hs : (chunkToElement c).sources = extractSources l := by
    simp [chunkToElement, hc]
  rw [hs, extractSources_eq_filter]

/-- C3 witness: the filtering statement at a concrete chunk whose metadata
mixes entries with both fields, a missing uri, an empty uri and a missing
title. -/
theorem C3_witness :
    (chunkToElement
        { text := "t"
          groundingChunks := some
            [{ web := { uri := some "u1", title := some "t1" } },
             { web := { uri := none, title := some "t2" } },
             { web := { uri := some "", title := some "t3" } },
             { web := { uri := some "u4", title := none } }] }).sources =
      (([{ web := { uri := some "u1", title := some "t1" } },
          { web := { uri := none, title := some "t2" } },
          { web := { uri := some "", title := some "t3" } },
          { web := { uri := some "u4", title := none } }] : List GroundingChunkMeta).filter
        fun g => jsTruthy g.web.uri && jsTruthy g.web.title).map
        (fun g => ({ uri := g.web.uri, title := g.web.title } : RawSource)) :=
  C3_theorem _ _ rfl

/-- C4: when neither configuration source yields a truthy credential, the
first client access fails with the configuration error naming the missing
API key, and the flows' output is then independent of any provider behavior
(no network interaction informs the failure); when a credential is truthy,
the accessor returns a client and caches it, and every call with a cached
client returns that same instance unchanged, whatever the environment then
holds. -/
theorem C4_theorem (env : Env) (hno : jsTruthy (resolvedKey env) = false) :
    getAIClient env none = .error apiKeyErrorMessage ∧
    (∀ p1 p2 : ProviderBehavior, ∀ hist : List Message, ∀ msg : String,
      getChatResponseStream env none p1 hist msg =
        getChatResponseStream env none p2 hist msg) ∧
    (∀ p1 p2 : ProviderBehavior, ∀ msg : String, ∀ file : Option FileObj,
      getDeepDiveResponseStream env none p1 msg file =
        getDeepDiveResponseStream env none p2 msg file) ∧
    (∀ envA : Env, jsTruthy (resolvedKey envA) = true →
      ∃ c : Client, getAIClient envA none = .ok (c, some c) ∧
        ∀ envB : Env, getAIClient envB (some c) = .ok (c, some c)) := by
  have herr : getAIClient env none = .error apiKeyErrorMessage := by
    simp [getAIClient, hno]
  refine ⟨herr, ?_, ?_, ?_⟩
  · intro p1 p2 hist msg
    simp [getChatResponseStream, herr]
  · intro p1 p2 msg file
    simp [getDeepDiveResponseStream, herr]
  · intro envA hA
    refine ⟨{ apiKey := (resolvedKey envA).getD "" }, ?_, ?_⟩
    · simp [getAIClient, hA]
    · intro envB
      rfl

/-- C4 witness: the accessor statement at the environment with neither
source set, and the cached-instance statement exercised through it. -/
theorem C4_witness :
    getAIClient { apiKeyEnv := none, apiKeyLocal := none } none =
      .error apiKeyErrorMessage ∧
    (∀ p1 p2 : ProviderBehavior, ∀ hist : List Message, ∀ msg : String,
      getChatResponseStream { apiKeyEnv := none, apiKeyLocal := none } none p1 hist msg =
        getChatResponseStream { apiKeyEnv := none, apiKeyLocal := none } none p2 hist msg) ∧
    (∀ p1 p2 : ProviderBehavior, ∀ msg : String, ∀ file : Option FileObj,
      getDeepDiveResponseStream { apiKeyEnv := none, apiKeyLocal := none } none p1 msg file =
        getDeepDiveResponseStream { apiKeyEnv := none, apiKeyLocal := none } none p2 msg file) ∧
    (∀ envA : Env, jsTruthy (resolvedKey envA) = true →
      ∃ c : Client, getAIClient envA none = .ok (c, some c) ∧
        ∀ envB : Env, getAIClient envB (some c) = .ok (c, some c)) :=
  C4_theorem { apiKeyEnv := none, apiKeyLocal := none } rfl

/-- C5: for every provider stream that throws after its chunks, each flow
yields the projected real chunks followed by exactly one placeholder holding
the flow's fixed apology and an empty source list, and terminates normally
(no exception escapes); a stream that errors immediately yields exactly the
one placeholder element. -/
theorem C5_theorem (env : Env) (c : Client) (p : ProviderBehavior)
    (hist : List Message) (msg dmsg : String) (file : Option FileObj)
    (herr : p.thenErrors = true) :
    getChatResponseStream env (some c) p hist msg =
      .ok (p.chunks.map chunkToElement ++ [{ text := chatApology, sources := [] }]) ∧
    getDeepDiveResponseStream env (some c) p dmsg file =
      .ok ((p.chunks.map fun ch => ({ text := ch.text, sources := [] } : StreamElement)) ++
        [{ text := deepDiveApology, sources := [] }]) ∧
    (p.chunks = [] →
      getChatResponseStream env (some c) p hist msg =
        .ok [{ text := chatApology, sources := [] }] ∧
      getDeepDiveResponseStream env (some c) p dmsg file =
        .ok [{ text := deepDiveApology, sources := [] }]) := by
  refine ⟨?_, ?_, ?_⟩
  · simp [getChatResponseStream, getAIClient, herr]
  · simp [getDeepDiveResponseStream, getAIClient, herr]
  · intro hempty
    constructor
    · simp [getChatResponseStream, getAIClient, herr, hempty]
    · simp [getDeepDiveResponseStream, getAIClient, herr, hempty]

/-- C5 witness: the error-placeholder statement at a provider that yields one
chunk and then throws, with a cached client. -/
theorem C5_witness :
    getChatResponseStream sampleEnvKey (some sampleClient) sampleErrProvider [] "m" =
      .ok (sampleErrProvider.chunks.map chunkToElement ++
        [{ text := chatApology, sources := [] }]) ∧
    getDeepDiveResponseStream sampleEnvKey (some sampleClient) sampleErrProvider "d" none =
      .ok ((sampleErrProvider.chunks.map
          fun ch => ({ text := ch.text, sources := [] } : StreamElement)) ++
        [{ text := deepDiveApology, sources := [] }]) ∧
    (sampleErrProvider.chunks = [] →
      getChatResponseStream sampleEnvKey (some sampleClient) sampleErrProvider [] "m" =
        .ok [{ text := chatApology, sources := [] }] ∧
      getDeepDiveResponseStream sampleEnvKey (some sampleClient) sampleErrProvider "d" none =
        .ok [{ text := deepDiveApology, sources := [] }]) :=
  C5_theorem sampleEnvKey sampleClient sampleErrProvider [] "m" "d" none rfl

/-- C6 counterexample: invoked with no credential resolvable (both sources
absent, nothing cached), each flow returns normally with the single apology
placeholder element: the configuration error is converted to a placeholder,
it does not propagate to the caller. -/
theorem C6_counterexample :
    getChatResponseStream { apiKeyEnv := none, apiKeyLocal := none } none
        { chunks := [], thenErrors := false } [] "hi" =
      .ok [{ text := chatApology, sources := [] }] ∧
    getDeepDiveResponseStream { apiKeyEnv := none, apiKeyLocal := none } none
        { chunks := [], thenErrors := false } "hi" none =
      .ok [{ text := deepDiveApology, sources := [] }] :=
  ⟨rfl, rfl⟩

/-- C6 (amended): a configuration error raised on first client access IS
caught by the streaming flows: when either flow is invoked with no credential
resolvable and no cached client, it yields exactly one placeholder element
with the flow's apology and empty sources and terminates normally, for every
provider behavior — the error does not propagate to the caller. -/
theorem C6_theorem (env : Env) (p : ProviderBehavior) (hist : List Message)
    (msg dmsg : String) (file : Option FileObj)
    (hno : jsTruthy (resolvedKey env) = false) :
    getChatResponseStream env none p hist msg =
      .ok [{ text := chatApology, sources := [] }] ∧
    getDeepDiveResponseStream env none p dmsg file =
      .ok [{ text := deepDiveApology, sources := [] }] := by
  have herr : getAIClient env none = .error apiKeyErrorMessage := by
    simp [getAIClient, hno]
  constructor
  · simp [getChatResponseStream, herr]
  · simp [getDeepDiveResponseStream, herr]

/-- C6 witness: the caught-error statement at the environment with neither
credential source set. -/
theorem C6_witness :
    getChatResponseStream sampleEnvNone none sampleOkProvider [] "m" =
      .ok [{ text := chatApology, sources := [] }] ∧
    getDeepDiveResponseStream sampleEnvNone none sampleOkProvider "d" none =
      .ok [{ text := deepDiveApology, sources := [] }] :=
  C6_theorem sampleEnvNone sampleOkProvider [] "m" "d" none rfl

/-- C7: with a file attached, the deep-dive request's single user turn holds
the encoded file payload followed by a text part: the fixed default prompt
when the message is empty, and the supplied message verbatim otherwise. -/
theorem C7_theorem (msg : String) (f : FileObj) :
    (getDeepDiveRequest "" (some f)).contents =
      [{ role := "user"
         parts := [ReqPart.inlineData f.data f.mimeType,
                   ReqPart.text deepDiveDefaultPrompt] }] ∧
    (msg ≠ "" →
      (getDeepDiveRequest msg (some f)).contents =
        [{ role := "user"
           parts := [ReqPart.inlineData f.data f.mimeType, ReqPart.text msg] }]) := by
  constructor
  · rfl
  · intro h
    simp [getDeepDiveRequest, buildDeepDiveUserParts, h]

/-- C7 witness: the attached-file statement at a concrete file and the
non-empty message x. -/
theorem C7_witness :
    (getDeepDiveRequest "" (some { data := "ZGF0YQ", mimeType := "application/pdf" })).contents =
      [{ role := "user"
         parts := [ReqPart.inlineData "ZGF0YQ" "application/pdf",
                   ReqPart.text deepDiveDefaultPrompt] }] ∧
    (("x" : String) ≠ "" →
      (getDeepDiveRequest "x" (some { data := "ZGF0YQ", mimeType := "application/pdf" })).contents =
        [{ role := "user"
           parts := [ReqPart.inlineData "ZGF0YQ" "application/pdf", ReqPart.text "x"] }]) :=
  C7_theorem "x" { data := "ZGF0YQ", mimeType := "application/pdf" }

/-- C8: every element the deep-dive flow yields, real chunk or error
placeholder, has an empty sources list: the flow never attaches citations. -/
theorem C8_theorem (env : Env) (cache : Option Client) (p : ProviderBehavior)
    (msg : String) (file : Option FileObj) (els : List StreamElement)
    (e : StreamElement)
    (hres : getDeepDiveResponseStream env cache p msg file = .ok els)
    (he : e ∈ els) : e.sources = [] := by
  rcases hcl : getAIClient env cache with err | cc
  · simp only [getDeepDiveResponseStream, hcl, Except.ok.injEq] at hres
    subst hres
    simp only [List.mem_singleton] at he
    rw [he]
  · simp only [getDeepDiveResponseStream, hcl] at hres
    cases ht : p.thenErrors with
    | true =>
        rw [ht] at hres
        simp only [if_true, Except.ok.injEq] at hres
        subst hres
        rcases List.mem_append.mp he with hm | hm
        · rcases List.mem_map.mp hm with ⟨ch, _, hch⟩
          rw [← hch]
        · simp only [List.mem_singleton] at hm
          rw [hm]
    | false =>
        rw [ht] at hres
        simp only [Bool.false_eq_true, if_false, Except.ok.injEq] at hres
        subst hres
        rcases List.mem_map.mp he with ⟨ch, _, hch⟩
        rw [← hch]

/-- C8 witness: the empty-sources statement at a concrete run of the
deep-dive flow that yields one real chunk. -/
theorem C8_witness :
    ({ text := "hello", sources := [] } : StreamElement).sources = [] :=
  C8_theorem sampleEnvKey (some sampleClient) sampleOkProvider "" none
    [{ text := "hello", sources := [] }] { text := "hello", sources := [] }
    rfl (List.mem_singleton.mpr rfl)

/-- C9: buildGeminiHistory leaves the caller's array unchanged: run against an
explicit heap of arrays, the call allocates a copy, mutates only the copy, and
its result is the pure adaptation of the caller's array, which still holds the
same elements in the same order afterwards. -/
theorem C9_theorem (h : MsgHeap) (r : Nat) (hr : r < h.length) :
    readRef (buildGeminiHistoryHeap h r).1 r = readRef h r ∧
    (buildGeminiHistoryHeap h r).2 = buildGeminiHistory (readRef h r) := by
  have hne : h.length ≠ r := ne_of_gt hr
  simp only [buildGeminiHistoryHeap, readRef_concat_top]
  cases hmsgs : readRef h r with
  | nil =>
      constructor
      · rw [readRef_append_self h r [] hr, hmsgs]
      · rw [readRef_concat_top h []]
        rfl
  | cons m rest =>
      simp only []
      by_cases hai : m.author = Author.ai
      · rw [if_pos hai]
        constructor
        · rw [readRef_set_ne (h ++ [m :: rest]) h.length r rest hne,
              readRef_append_self h r (m :: rest) hr, hmsgs]
        · rw [readRef_set_top (h ++ [m :: rest]) rest h.length (by simp),
              buildGeminiHistory_cons_ai m rest hai]
      · rw [if_neg hai]
        constructor
        · rw [readRef_append_self h r (m :: rest) hr, hmsgs]
        · rw [readRef_concat_top h (m :: rest)]
          have hu : m.author = Author.user := by
            cases hcase : m.author
            · rfl
            · exact absurd hcase hai
          rw [buildGeminiHistory_cons_user m rest hu]

/-- C9 witness: the frame statement at a concrete one-cell heap whose array
starts with an assistant turn. -/
theorem C9_witness :
    readRef (buildGeminiHistoryHeap sampleHeap 0).1 0 = readRef sampleHeap 0 ∧
    (buildGeminiHistoryHeap sampleHeap 0).2 = buildGeminiHistory (readRef sampleHeap 0) :=
  C9_theorem sampleHeap 0 (Nat.zero_lt_one)

/-- C10: with an empty message and no file, the deep-dive request's single
user turn holds exactly one part, a text part equal to the fixed default
prompt: the default-on-empty substitution applies even without a file. -/
theorem C10_theorem :
    (getDeepDiveRequest "" none).contents =
      [{ role := "user", parts := [ReqPart.text deepDiveDefaultPrompt] }] ∧
    ((getDeepDiveRequest "" none).contents.map fun t => t.parts.length) = [1] :=
  ⟨rfl, rfl⟩
